import Mathlib

/-!
# Formal model of the resume-analysis engine

A shallow embedding of `src/backend/utils.py` and `src/backend/main.py`
(repository `resume-analysis-app`).  Document text is modelled as `List Char`
(Python `str` over its ASCII fragment), Python floats as exact rationals `ℚ`
(the engine's constants are all decimal; claims are settled under exact
arithmetic), and the two external oracles (`textstat.flesch_kincaid_grade`,
`rapidfuzz.fuzz.partial_ratio`) as explicit parameters, matching the spec's
engine boundary (§6).
-/

/-- Document text: a Python string, modelled as its list of characters. -/
abbrev Text := List Char

/-- Coerce a Lean string literal to the `Text` model. -/
def chars (s : String) : Text := s.data

/-! ## Character classes (ASCII fragment of Python `str` / `re` semantics) -/

/-- Python `\d` (ASCII). -/
def isDigitC (c : Char) : Bool := '0' ≤ c && c ≤ '9'

/-- Python `\w` (ASCII fragment): `[A-Za-z0-9_]`. -/
def isWordC (c : Char) : Bool :=
  isDigitC c || ('a' ≤ c && c ≤ 'z') || ('A' ≤ c && c ≤ 'Z') || c = '_'

/-- Python `\s` / `str.strip` whitespace (ASCII fragment). -/
def isSpaceC (c : Char) : Bool :=
  c = ' ' || c = '\t' || c = '\n' || c = '\x0d' || c = '\x0b' || c = '\x0c'

/-- The class `[A-Z]`. -/
def isUpperC (c : Char) : Bool := 'A' ≤ c && c ≤ 'Z'

/-- ASCII lowercasing, as Python `str.lower` acts on ASCII letters. -/
def lowerC (c : Char) : Char :=
  if isUpperC c then Char.ofNat (c.toNat + 32) else c

/-- ASCII uppercasing of one character (for Python `str.capitalize`). -/
def upperC (c : Char) : Char :=
  if 'a' ≤ c && c ≤ 'z' then Char.ofNat (c.toNat - 32) else c

/-- Python `str.lower` (ASCII fragment). -/
def lowerT (t : Text) : Text := t.map lowerC

/-- Python `str.strip()`: drop whitespace from both ends. -/
def strip (t : Text) : Text :=
  ((t.dropWhile isSpaceC).reverse.dropWhile isSpaceC).reverse

/-! ## Python-style splitting -/

/-- Fuel-driven worker for `wordsBy`: split into maximal runs of
non-separator characters, dropping empty pieces (Python `str.split()` with
no argument).  Each step consumes at least one character, so fuel
`t.length + 1` always suffices. -/
def wordsByAux (sep : Char → Bool) : ℕ → Text → List Text
  | 0, _ => []
  | _, [] => []
  | fuel+1, c :: cs =>
    if sep c then wordsByAux sep fuel cs
    else (c :: cs.takeWhile (fun d => !sep d)) ::
      wordsByAux sep fuel (cs.dropWhile (fun d => !sep d))

/-- Maximal runs of non-separator characters (empty runs dropped). -/
def wordsBy (sep : Char → Bool) (t : Text) : List Text :=
  wordsByAux sep (t.length + 1) t

/-- Python `str.split()` (split on whitespace, dropping empties). -/
def pySplit (t : Text) : List Text := wordsBy isSpaceC t

/-- Fuel-driven worker for `reSplit`: Python `re.split` with a separator
class repeated (`\W+`-style), which keeps the empty pieces at the two ends.
-/
def reSplitAux (p : Char → Bool) : ℕ → Text → List Text
  | 0, _ => [[]]
  | fuel+1, t =>
    let piece := t.takeWhile (fun c => !p c)
    let rest := t.dropWhile (fun c => !p c)
    match rest with
    | [] => [piece]
    | _ :: rs => piece :: reSplitAux p fuel (rs.dropWhile p)

/-- Python `re.split(r"<p>+", t)`: pieces between maximal separator runs,
empty boundary pieces kept. -/
def reSplit (p : Char → Bool) (t : Text) : List Text :=
  reSplitAux p (t.length + 1) t

/-- Python `str.splitlines` worker (`\r\n`, `\n`, `\r`, `\x0b`, `\x0c`
terminators; no trailing empty line). -/
def splitlinesGo : Text → Text → List Text
  | cur, [] => [cur.reverse]
  | cur, '\x0d' :: '\n' :: rest =>
    cur.reverse :: (if rest = [] then [] else splitlinesGo [] rest)
  | cur, c :: rest =>
    if c = '\n' || c = '\x0d' || c = '\x0b' || c = '\x0c' then
      cur.reverse :: (if rest = [] then [] else splitlinesGo [] rest)
    else splitlinesGo (c :: cur) rest

/-- Python `str.splitlines` (ASCII line terminators). -/
def splitlines (t : Text) : List Text :=
  if t = [] then [] else splitlinesGo [] t

/-! ## Python `round(x, 2)` over exact rationals

Python's `round` uses round-half-to-even.  `rhe` is round-half-even to an
integer; `pyRound2` rounds to two decimal places. -/

/-- Executable floor of a rational (`Rat.floor_def`). -/
def qfloor (q : ℚ) : ℤ := q.num / (q.den : ℤ)

theorem qfloor_eq (q : ℚ) : qfloor q = ⌊q⌋ := Rat.floor_def.symm

/-- Round half to even: nearest integer, ties going to the even one. -/
def rhe (q : ℚ) : ℤ :=
  let f := qfloor q
  let r := q - f
  if r < 1/2 then f
  else if 1/2 < r then f + 1
  else if f % 2 = 0 then f else f + 1

/-- Python `round(q, 2)` under exact arithmetic. -/
def pyRound2 (q : ℚ) : ℚ := (rhe (100 * q) : ℚ) / 100

theorem rhe_intCast (n : ℤ) : rhe (n : ℚ) = n := by
  unfold rhe
  simp [qfloor_eq, Int.floor_intCast]

theorem rhe_nonneg {q : ℚ} (h : 0 ≤ q) : 0 ≤ rhe q := by
  unfold rhe
  rw [qfloor_eq]
  have hf : (0 : ℤ) ≤ ⌊q⌋ := Int.floor_nonneg.mpr h
  simp only []
  split
  · exact hf
  · split
    · omega
    · split <;> omega

theorem pyRound2_nonneg {q : ℚ} (h : 0 ≤ q) : 0 ≤ pyRound2 q := by
  unfold pyRound2
  have : (0 : ℤ) ≤ rhe (100 * q) := rhe_nonneg (by positivity)
  positivity

/-- Values expressible with two decimal places. -/
def IsCent (q : ℚ) : Prop := ∃ n : ℤ, q = n / 100

theorem isCent_pyRound2 (q : ℚ) : IsCent (pyRound2 q) := ⟨rhe (100 * q), rfl⟩

theorem IsCent.round_eq {q : ℚ} (h : IsCent q) : pyRound2 q = q := by
  obtain ⟨n, rfl⟩ := h
  unfold pyRound2
  have h100 : (100 : ℚ) * (n / 100) = (n : ℚ) := by ring
  rw [h100, rhe_intCast]

theorem IsCent.add {a b : ℚ} (ha : IsCent a) (hb : IsCent b) : IsCent (a + b) := by
  obtain ⟨m, rfl⟩ := ha; obtain ⟨n, rfl⟩ := hb
  exact ⟨m + n, by push_cast; ring⟩

theorem IsCent.min {a b : ℚ} (ha : IsCent a) (hb : IsCent b) :
    IsCent (min a b) := by
  rcases le_total a b with h | h
  · rwa [min_eq_left h]
  · rwa [min_eq_right h]

theorem IsCent.max {a b : ℚ} (ha : IsCent a) (hb : IsCent b) :
    IsCent (max a b) := by
  rcases le_total a b with h | h
  · rwa [max_eq_right h]
  · rwa [max_eq_left h]

theorem isCent_ofInt (n : ℤ) : IsCent (n : ℚ) := ⟨100 * n, by push_cast; ring⟩

theorem isCent_zero : IsCent (0 : ℚ) := ⟨0, by norm_num⟩
theorem isCent_one : IsCent (1 : ℚ) := ⟨100, by norm_num⟩
theorem isCent_two : IsCent (2 : ℚ) := ⟨200, by norm_num⟩
theorem isCent_three : IsCent (3 : ℚ) := ⟨300, by norm_num⟩
theorem isCent_half : IsCent (0.5 : ℚ) := ⟨50, by norm_num⟩
theorem isCent_oneHalf : IsCent (1.5 : ℚ) := ⟨150, by norm_num⟩

/-- Python's `needle in hay` on strings: substring containment. -/
def containsSub (needle : Text) : Text → Bool
  | [] => needle.isEmpty
  | c :: cs => needle.isPrefixOf (c :: cs) || containsSub needle cs

/-! ## Engine constants (`utils.py` lines 8–10) -/

/-- The `HEADER_HINTS` list (utils.py line 10), in its literal order. -/
def HEADER_HINTS : List Text :=
  [chars "experience", chars "work", chars "projects", chars "education",
   chars "skills", chars "summary", chars "certifications"]

/-! ## `METRIC_RE` (utils.py line 9)

`(?:(\d+\.?\d*)%|\b\d+\b\s*(?:ms|s|min|hr|days?|x|k|K|M|million|billion))`,
under `re.search` semantics: does a match start at some position?  The first
alternative is digits, an optional dot with more digits, then `%`.  The
second needs a word boundary, a digit run, a word boundary (so the character
after the run must be a non-word character), optional whitespace, then one
of the unit words.  For a boolean search, greedy matching with backtracking
reduces to the run-based conditions below. -/

/-- The unit vocabulary of `METRIC_RE`'s second alternative (`days?`
expands to both spellings; prefix matching is all `re.search` needs). -/
def METRIC_UNITS : List Text :=
  [chars "ms", chars "s", chars "min", chars "hr", chars "days", chars "day",
   chars "x", chars "k", chars "K", chars "M", chars "million", chars "billion"]

/-- First alternative of `METRIC_RE` matching at the head of `t`:
`\d+\.?\d*%`. -/
def metricAlt1 (t : Text) : Bool :=
  let ds := t.takeWhile isDigitC
  let rest := t.dropWhile isDigitC
  !ds.isEmpty &&
    (match rest with
     | '%' :: _ => true
     | '.' :: r2 =>
       (match r2.dropWhile isDigitC with
        | '%' :: _ => true
        | _ => false)
     | _ => false)

/-- Second alternative of `METRIC_RE` matching at the head of `t`, where
`prev` is the character before `t` (`none` at the start of the text):
`\b\d+\b\s*(?:ms|…|billion)`. -/
def metricAlt2 (prev : Option Char) (t : Text) : Bool :=
  (match prev with
   | none => true
   | some p => !isWordC p) &&
  (let ds := t.takeWhile isDigitC
   let rest := t.dropWhile isDigitC
   !ds.isEmpty &&
     (match rest with
      | [] => false
      | c :: _ =>
        !isWordC c &&
          METRIC_UNITS.any (fun u => u.isPrefixOf (rest.dropWhile isSpaceC))))

/-- A `METRIC_RE` match starting exactly at the head of `t`. -/
def metricMatchAt (prev : Option Char) (t : Text) : Bool :=
  metricAlt1 t || metricAlt2 prev t

/-- Scan for a match at every position, tracking the previous character. -/
def metricSearchAux : Option Char → Text → Bool
  | _, [] => false
  | prev, c :: cs => metricMatchAt prev (c :: cs) || metricSearchAux (some c) cs

/-- Whether `METRIC_RE.search(t)` is truthy. -/
def metricSearch (t : Text) : Bool := metricSearchAux none t

/-! ## `ACTION_BULLET_RE` and `bullets` (utils.py lines 8, 66–67)

`^(?:[-•*]\s*)?([A-Z][^\n]{0,200})` with `re.M`, iterated by `finditer`.
A match can only start at a line start (position 0 or right after `\n`).
At such a position an optional marker character is consumed, then greedy
`\s*` (which may cross newlines), then a capital letter and up to 200
further non-newline characters (greedy).  `finditer` resumes scanning at
the end of each match.  Fuel: every step consumes at least one character,
so `t.length + 1` suffices. -/

/-- The optional bullet-marker class `[-•*]`. -/
def isMarkerC (c : Char) : Bool := c = '-' || c = '•' || c = '*'

/-- Worker for `bullets`: scan with fuel, a cursor and a line-start flag,
returning the captured group of each match in order. -/
def bulletsAux : ℕ → Text → Bool → List Text
  | 0, _, _ => []
  | _+1, [], _ => []
  | fuel+1, c :: cs, atLS =>
    if atLS && isMarkerC c then
      match cs.dropWhile isSpaceC with
      | d :: ds =>
        if isUpperC d then
          let body := (ds.takeWhile (fun x => x ≠ '\n')).take 200
          (d :: body) :: bulletsAux fuel (ds.drop body.length) false
        else bulletsAux fuel cs false
      | [] => bulletsAux fuel cs false
    else if atLS && isUpperC c then
      let body := (cs.takeWhile (fun x => x ≠ '\n')).take 200
      (c :: body) :: bulletsAux fuel (cs.drop body.length) false
    else bulletsAux fuel cs (c = '\n')

/-- The function `bullets(text)` (utils.py lines 66–67): every `finditer` group,
stripped. -/
def bullets (t : Text) : List Text :=
  (bulletsAux (t.length + 1) t true).map strip

/-! ## Section segmentation (utils.py lines 27–43) -/

/-- The header test inside `detect_sections`' line loop: the first header
hint (in `HEADER_HINTS` order) contained in the lowercased line, provided
the stripped line has length at most 40. -/
def classifyHeader (ln : Text) : Option Text :=
  HEADER_HINTS.find? (fun h => containsSub h (lowerT ln) && decide (ln.length ≤ 40))

/-- The line loop of `detect_sections`: assign each non-header line to the
current section; a header line only switches the current section. -/
def assignLines : List Text → Text → List (Text × Text)
  | [], _ => []
  | ln :: rest, cur =>
    match classifyHeader ln with
    | some h => assignLines rest h
    | none => (cur, ln) :: assignLines rest cur

/-- The lines accumulated for one section key. -/
def sectionLines (text : Text) (h : Text) : List Text :=
  (assignLines ((splitlines text).map strip) (chars "summary")).filterMap
    (fun p => if p.1 = h then some p.2 else none)

/-- The map `detect_sections(text)`: keys (in `HEADER_HINTS` order, as Python's
dict comprehension preserves) with at least one assigned line, mapped to
the newline-joined and stripped block. -/
def detect_sections (text : Text) : List (Text × Text) :=
  HEADER_HINTS.filterMap (fun h =>
    let v := sectionLines text h
    if v.isEmpty then none else some (h, strip (List.intercalate ['\n'] v)))

/-- Python `dict.get(k, "")` on the section map. -/
def sget (m : List (Text × Text)) (k : Text) : Text :=
  match m.find? (fun p => p.1 = k) with
  | some p => p.2
  | none => []

/-! ## Tokenizer/Normalizer (utils.py lines 46–47) -/

/-- The character class kept by `normalize_token`: `[a-z0-9+.#]`. -/
def isNormKeep (c : Char) : Bool :=
  ('a' ≤ c && c ≤ 'z') || isDigitC c || c = '+' || c = '.' || c = '#'

/-- The normalizer `normalize_token(t)`: lowercase, replace every character outside
`[a-z0-9+.#]` with a space, strip. -/
def normalize_token (t : Text) : Text :=
  strip ((lowerT t).map (fun c => if isNormKeep c then c else ' '))

/-! ## Ontology (the externally loaded `ontology.json`, read-only) -/

/-- The parsed ontology: skill buckets (bucket name, synonyms) and an
action-verb list. -/
structure Ontology where
  skills : List (Text × List Text)
  action_verbs : List Text

/-! ## Skill matcher (utils.py lines 50–63) -/

/-- Lexicographic comparison of texts (Python string `<=` on code points). -/
def textLe : Text → Text → Bool
  | [], _ => true
  | _ :: _, [] => false
  | a :: moreA, b :: moreB =>
    if a < b then true else if b < a then false else textLe moreA moreB

/-- Insert into a `textLe`-sorted list. -/
def insertSorted (x : Text) : List Text → List Text
  | [] => [x]
  | y :: ys => if textLe x y then x :: y :: ys else y :: insertSorted x ys

/-- Insertion sort by `textLe` (Python `sorted` on strings). -/
def sortTexts : List Text → List Text
  | [] => []
  | x :: xs => insertSorted x (sortTexts xs)

/-- The matcher `extract_skills(text, ontology)`: exact-token or fuzzy synonym match,
returning the sorted set of matched synonyms.  `fuzzy` is the external
`rapidfuzz.fuzz.partial_ratio` oracle (0–100). -/
def extract_skills (fuzzy : Text → Text → ℕ) (text : Text) (ont : Ontology) :
    List Text :=
  let tokens := (reSplit (fun c => !isWordC c) (lowerT text)).map normalize_token
  let norm_text := normalize_token text
  let found := (ont.skills.map (fun bucket =>
    bucket.2.filter (fun s =>
      tokens.contains (normalize_token s) ||
        90 < fuzzy (normalize_token s) norm_text))).flatten
  sortTexts found.dedup

/-! ## Bullet scorer (utils.py lines 70–98) -/

/-- The hard-coded technology keyword list in `score_bullets`. -/
def TECH_KEYWORDS : List Text :=
  [chars "python", chars "sql", chars "react", chars "docker", chars "pandas",
   chars "tensorflow", chars "pytorch", chars "powerbi", chars "tableau",
   chars "fastapi", chars "flask", chars "airflow"]

/-- The loop's `continue` guard: `b.split()` is non-empty. -/
def bulletHasWords (b : Text) : Bool := !(pySplit b).isEmpty

/-- One bullet's contribution to `action_hits`: its first word, lowered,
is an ontology action verb. -/
def bulletActionHit (verbs : List Text) (b : Text) : Bool :=
  match pySplit b with
  | [] => false
  | w :: _ => verbs.contains (lowerT w)

/-- One bullet's contribution to `metric_hits`. -/
def bulletMetricHit (b : Text) : Bool := bulletHasWords b && metricSearch b

/-- One bullet's contribution to `tech_hits`. -/
def bulletTechHit (b : Text) : Bool :=
  bulletHasWords b && TECH_KEYWORDS.any (fun k => containsSub k (lowerT b))

/-- Result of `score_bullets`. -/
structure BulletScore where
  score : ℚ
  reasons : List Text
deriving DecidableEq

/-- The empty-input reason string. -/
def NO_BULLETS_REASON : Text := chars "No bullet points detected."

/-- The `action_hits` count of the loop in `score_bullets`. -/
def actionHits (verbs : List Text) (bs : List Text) : ℕ :=
  bs.countP (bulletActionHit verbs)

/-- The `metric_hits` count of the loop in `score_bullets`. -/
def metricHits (bs : List Text) : ℕ := bs.countP bulletMetricHit

/-- The `tech_hits` count of the loop in `score_bullets`. -/
def techHits (bs : List Text) : ℕ := bs.countP bulletTechHit

/-- The denominator `n = max(1, len(bullets_list))` in `score_bullets`. -/
def bulletN (bs : List Text) : ℕ := max 1 bs.length

/-- The weighted composite of `score_bullets` (utils.py line 90). -/
def bulletComposite (bs : List Text) (ont : Ontology) : ℚ :=
  0.8 * ((actionHits ont.action_verbs bs : ℚ) / (bulletN bs : ℚ)) +
  1.2 * ((metricHits bs : ℚ) / (bulletN bs : ℚ)) +
  1.0 * ((techHits bs : ℚ) / (bulletN bs : ℚ))

/-- The reasons of `score_bullets` (utils.py lines 92–97). -/
def bulletReasons (bs : List Text) (ont : Ontology) : List Text :=
  (if (actionHits ont.action_verbs bs : ℚ) < (bulletN bs : ℚ) / 2
    then [chars "Many bullets lack strong action verbs."] else []) ++
  (if (metricHits bs : ℚ) < (bulletN bs : ℚ) / 2
    then [chars "Few bullets quantify impact (%, #, time)."] else []) ++
  (if (techHits bs : ℚ) < (bulletN bs : ℚ) / 2
    then [chars "Bullets often miss concrete tech/context."] else [])

/-- The scorer `score_bullets(bullets_list, ontology)` (utils.py lines 70–98); line 91
computes `min(3.0, round(composite * 3.0, 2)) / 3.0 * 3.0`. -/
def score_bullets (bs : List Text) (ont : Ontology) : BulletScore :=
  if bs = [] then ⟨0, [NO_BULLETS_REASON]⟩
  else
    ⟨pyRound2 (min 3.0 (pyRound2 (bulletComposite bs ont * 3.0)) / 3.0 * 3.0),
     bulletReasons bs ont⟩

/-! ## Clarity/Tone terms (utils.py lines 101–129) -/

/-- The term `readability_score(text)`: the external `gradeLevel` oracle result, or
`none` when the oracle raises (the `except` branch returns 0.4). -/
def readability_score (grade : Option ℚ) : ℚ :=
  match grade with
  | none => 0.4
  | some g =>
    if 10 ≤ g ∧ g ≤ 12 then 0.8
    else max 0 (0.8 - |11 - g| * 0.1)

/-- The term `concision_bonus(text)`. -/
def concision_bonus (text : Text) : ℚ :=
  let blts := bullets text
  if blts = [] then 0.3
  else
    max 0 (0.7 - 0.7 *
      ((blts.countP (fun b => decide (28 < (pySplit b).length)) : ℚ) /
        blts.length))

/-- Suffix test on texts. -/
def endsWithT (suf w : Text) : Bool := suf.reverse.isPrefixOf w.reverse

/-- Count of `\b\w+ed\b` matches: maximal word runs of length ≥ 3 ending
in "ed" (the regex needs at least one word character before the suffix,
and both boundaries force the run to be maximal). -/
def countPast (t : Text) : ℕ :=
  (wordsBy (fun c => !isWordC c) t).countP
    (fun w => endsWithT (chars "ed") w && decide (3 ≤ w.length))

/-- Count of `\b\w+ing\b` matches: maximal word runs of length ≥ 4 ending
in "ing". -/
def countPresent (t : Text) : ℕ :=
  (wordsBy (fun c => !isWordC c) t).countP
    (fun w => endsWithT (chars "ing") w && decide (4 ≤ w.length))

/-- The term `tense_consistency(text)`. -/
def tense_consistency (text : Text) : ℚ :=
  let lt := lowerT text
  let past := countPast lt
  let present := countPresent lt
  let total := past + present + 1
  let ratio : ℚ := (min past present : ℚ) / total
  0.2 + 0.3 * (1 - ratio)

/-! ## Structure/ATS (utils.py lines 132–147) -/

/-- The scorer `structure_ats(text)`: the four penalties in source order, the reason
emitted per triggered penalty, and the final `max(0.0, round(score, 2))`. -/
def structure_ats (text : Text) : ℚ × List Text :=
  let p1 := 18000 < text.length
  let p2 := text.contains '\t'
  let p3 := text.count '•' + text.count '-' < 5
  let p4 := ¬ (HEADER_HINTS.any (fun h => containsSub h (lowerT text)) = true)
  let reasons :=
    (if p1 then [chars "Resume likely exceeds recommended length."] else []) ++
    (if p2 then [chars "Tabs/tables may hurt ATS parsing."] else []) ++
    (if p3 then [chars "Too few bullet points detected."] else []) ++
    (if p4 then [chars "Missing standard section headers."] else [])
  let score : ℚ := 1.5 - (if p1 then 0.4 else 0) - (if p2 then 0.3 else 0) -
    (if p3 then 0.3 else 0) - (if p4 then 0.3 else 0)
  (max 0 (pyRound2 score), reasons)

/-! ## Projects evidence and hygiene (utils.py lines 150–169) -/

/-- The scorer `projects_evidence(sec_text)` (the two alternation regexes are
case-insensitive literal searches; the metric regex is not). -/
def projects_evidence (sec : Text) : ℚ :=
  let s := lowerT sec
  let v1 := containsSub (chars "problem") s || containsSub (chars "challenge") s ||
    containsSub (chars "goal") s
  let v2 := containsSub (chars "approach") s || containsSub (chars "method") s ||
    containsSub (chars "stack") s || containsSub (chars "tech") s
  let v3 := metricSearch sec
  min 1.0 (pyRound2 ((if v1 then 0.3 else 0) + (if v2 then 0.3 else 0) +
    (if v3 then 0.4 else 0)))

/-- The scorer `hygiene(text)`: `re.search(r"@")` is membership of `@`;
`re.search(r"\+?\d{7,}")` succeeds exactly when some maximal digit run has
length at least 7. -/
def hygiene (text : Text) : ℚ :=
  let hasAt := text.contains '@'
  let hasPhone := (wordsBy (fun c => !isDigitC c) text).any
    (fun r => decide (7 ≤ r.length))
  max 0 (pyRound2 (0.5 - (if hasAt then 0 else 0.2) -
    (if hasPhone then 0 else 0.1) - (if text.length < 500 then 0.2 else 0)))

/-! ## Two-line summary (utils.py lines 172–176) -/

/-- The template `two_line_summary(skills, target_role)` (`target_role or "technology"`
treats both a missing and an empty role as absent). -/
def two_line_summary (skills : List Text) (target_role : Option Text) : Text :=
  let lead := match target_role with
    | some (c :: cs) => c :: cs
    | _ => chars "technology"
  let top := if skills = [] then chars "impactful projects"
    else List.intercalate (chars ", ") (skills.take 4)
  chars "Early‑career " ++ lead ++
    chars " candidate with hands‑on experience in " ++ top ++
    chars ". Delivers measurable outcomes through clear problem framing, rapid experimentation, and clean deliverables."

/-! ## JD comparator (utils.py lines 179–189) -/

/-- Result of `jd_compare`. -/
structure JDComp where
  coverage_pct : Option ℕ
  missing_skills : List Text
  matched_keywords : List Text
  recommendations : List Text
deriving DecidableEq

/-- The canonical skill shortlist in `jd_compare`.  The source writes it
as a Python set literal, whose iteration order is unspecified; the
embedding fixes the literal's textual order (every fact proved below is
independent of that order). -/
def CANON : List Text :=
  [chars "python", chars "sql", chars "powerbi", chars "docker",
   chars "airflow", chars "react", chars "tableau", chars "pandas",
   chars "numpy", chars "tensorflow", chars "pytorch"]

/-- The normalized token set of the job description:
`set(normalize_token(w) for w in jd.split())`. -/
def jdTokens (jd : Text) : List Text := (pySplit jd).map normalize_token

/-- The `matched` list: detected skills whose normalized form is a JD token. -/
def matchedOf (jd : Text) (skills : List Text) : List Text :=
  skills.filter (fun s => (jdTokens jd).contains (normalize_token s))

/-- The `missing` list: canonical skills not among the normalized detected skills
but present among the JD tokens. -/
def missingOf (jd : Text) (skills : List Text) : List Text :=
  CANON.filter (fun s =>
    !(skills.map normalize_token).contains s && (jdTokens jd).contains s)

/-- The recommendation template of `jd_compare`. -/
def recTemplate (m : Text) : Text :=
  chars "Add a bullet showing " ++ m ++ chars " in context of a project/result."

/-- The comparator `jd_compare(jd, skills)`.  Python `int()` on the non-negative float quotient
truncates, which is natural-number division here. -/
def jd_compare (jd : Text) (skills : List Text) : JDComp :=
  if jd = [] then ⟨none, [], [], []⟩
  else
    let matched := matchedOf jd skills
    let missing := missingOf jd skills
    let coverage : ℕ :=
      (100 * matched.length) / max 1 (matched.length + missing.length)
    ⟨some coverage, missing.take 8, matched, (missing.take 5).map recTemplate⟩

/-! ## Improvements (utils.py lines 192–217) -/

/-- One improvement tip. -/
structure Tip where
  sectionName : Text
  issue : Text
  fix_example : Text
deriving DecidableEq

/-- Python `str.capitalize`: first character uppercased, the rest lowered. -/
def pyCapitalize : Text → Text
  | [] => []
  | c :: cs => upperC c :: lowerT cs

/-- The tips `improvements(section_texts)`: first top-3 bullet without a metric,
a short-skills check, a missing-projects check, in that order. -/
def improvements (sections : List (Text × Text)) : List Tip :=
  let exp := sget sections (chars "experience") ++ ['\n'] ++
    sget sections (chars "projects")
  let blts := bullets exp
  let t1 := match (blts.take 3).find? (fun b => !metricSearch b) with
    | some b =>
      [⟨chars "Experience/Projects", chars "Bullet lacks measurable result",
        pyCapitalize ((pySplit b).headD []) ++
          chars " ... resulting in {metric} (e.g., +23%, −120ms, 2× throughput)."⟩]
    | none => []
  let t2 := if (pySplit (sget sections (chars "skills"))).length < 6 then
    [⟨chars "Skills", chars "Skills too generic or short",
      chars "Group as Languages / Libraries / Tools with 4–6 items each."⟩]
    else []
  let t3 := if sget sections (chars "projects") = [] then
    [⟨chars "Projects", chars "Missing or weak projects section",
      chars "Add 2 projects with Problem→Approach→Result and links."⟩]
    else []
  t1 ++ t2 ++ t3

/-! ## The aggregator (`main.py` lines 37–103) -/

/-- The six rubric subscores as reported in the response. -/
structure Subscores where
  impact_bullets : ℚ
  skill_alignment : ℚ
  clarity_tone : ℚ
  structure_ats : ℚ
  projects : ℚ
  hygiene : ℚ
deriving DecidableEq

/-- The full analysis response (`main.py` lines 85–102); `highlights` is
flattened into its two fields. -/
structure AnalysisResponse where
  overall_score : ℚ
  subscores : Subscores
  skills_detected : List Text
  bullets_analyzed : List Text
  improvements : List Tip
  two_line_summary : Text
  jd_comparison : JDComp

/-- The bullet list `analyze` scores: bullets of the experience and
projects sections joined by a newline (`main.py` line 58). -/
def analyzeBullets (text : Text) : List Text :=
  let sections := detect_sections text
  bullets (sget sections (chars "experience") ++ ['\n'] ++
    sget sections (chars "projects"))

/-- The engine `analyze` (`main.py` lines 37–103) as a pure function of
the decoded text, the ontology, the optional form fields and the two
external oracles (`fuzzy` for `rapidfuzz`, `grade` for `textstat`, with
`none` denoting an oracle failure caught by `readability_score`). -/
def analyze (fuzzy : Text → Text → ℕ) (grade : Option ℚ) (text : Text)
    (ont : Ontology) (target_role job_description : Option Text) :
    AnalysisResponse :=
  let sections := detect_sections text
  let skills := extract_skills fuzzy text ont
  let blts := analyzeBullets text
  let bullets_score := score_bullets blts ont
  let clarity := readability_score grade + concision_bonus text +
    tense_consistency text
  let ats := structure_ats text
  let proj_score := projects_evidence (sget sections (chars "projects"))
  let hygiene_score := hygiene text
  let impact_bullets := min 3.0 bullets_score.score
  let keyword_alignment :=
    min 2.0 (pyRound2 (2.0 * ((skills.take 10).length : ℚ) / 10))
  let clarity_tone := min 2.0 (pyRound2 clarity)
  let structure_score := min 1.5 ats.1
  let projects_sub := min 1.0 proj_score
  let hygiene_sub := min 0.5 hygiene_score
  let total := impact_bullets + keyword_alignment + clarity_tone +
    structure_score + projects_sub + hygiene_sub
  let overall := pyRound2 total
  let tips := improvements sections ++
    (if ats.2 = [] then []
     else [⟨chars "Structure/ATS", List.intercalate (chars "; ") ats.2,
       chars "Use simple headers and bullet lists; avoid tables/columns."⟩])
  { overall_score := overall
    subscores :=
      ⟨pyRound2 impact_bullets, pyRound2 keyword_alignment,
       pyRound2 clarity_tone, pyRound2 structure_score,
       pyRound2 projects_sub, pyRound2 hygiene_sub⟩
    skills_detected := skills
    bullets_analyzed := blts.take 10
    improvements := tips
    two_line_summary := two_line_summary skills target_role
    jd_comparison :=
      jd_compare (match job_description with
        | some s => s
        | none => []) skills }

/-! ## Generic helper lemmas -/

theorem pyRound2_zero : pyRound2 0 = 0 := by
  have : pyRound2 ((0 : ℤ) : ℚ) = ((0 : ℤ) : ℚ) := (isCent_ofInt 0).round_eq
  simpa using this

theorem isCent_lit1 : IsCent (1.0 : ℚ) := ⟨100, by norm_num⟩
theorem isCent_lit2 : IsCent (2.0 : ℚ) := ⟨200, by norm_num⟩
theorem isCent_lit3 : IsCent (3.0 : ℚ) := ⟨300, by norm_num⟩
theorem isCent_lit05 : IsCent (0.5 : ℚ) := ⟨50, by norm_num⟩
theorem isCent_lit15 : IsCent (1.5 : ℚ) := ⟨150, by norm_num⟩

theorem bulletN_pos (bs : List Text) : (0 : ℚ) < (bulletN bs : ℚ) := by
  have : (1 : ℕ) ≤ bulletN bs := le_max_left 1 _
  exact_mod_cast Nat.lt_of_lt_of_le Nat.zero_lt_one this

theorem bulletComposite_nonneg (bs : List Text) (ont : Ontology) :
    0 ≤ bulletComposite bs ont := by
  unfold bulletComposite
  have := bulletN_pos bs
  positivity

/-- The scale-down/scale-up in utils.py line 91 divides by 3 and multiplies
back: a no-op under exact arithmetic. -/
theorem div3_mul3 (x : ℚ) : x / 3.0 * 3.0 = x := by norm_num

theorem score_bullets_isCent (bs : List Text) (ont : Ontology) :
    IsCent (score_bullets bs ont).score := by
  unfold score_bullets
  split
  · exact isCent_zero
  · exact isCent_pyRound2 _

theorem score_bullets_score_eq (bs : List Text) (ont : Ontology) (h : bs ≠ []) :
    (score_bullets bs ont).score =
      min 3.0 (pyRound2 (bulletComposite bs ont * 3.0)) := by
  unfold score_bullets
  rw [if_neg h]
  show pyRound2 (min 3.0 (pyRound2 (bulletComposite bs ont * 3.0)) / 3.0 * 3.0) = _
  rw [div3_mul3]
  exact (IsCent.min isCent_lit3 (isCent_pyRound2 _)).round_eq

theorem score_bullets_nonneg (bs : List Text) (ont : Ontology) :
    0 ≤ (score_bullets bs ont).score := by
  rcases eq_or_ne bs [] with h | h
  · subst h
    simp [score_bullets]
  · rw [score_bullets_score_eq bs ont h]
    exact le_min (by norm_num)
      (pyRound2_nonneg (by nlinarith [bulletComposite_nonneg bs ont]))

theorem readability_nonneg (grade : Option ℚ) : 0 ≤ readability_score grade := by
  unfold readability_score
  match grade with
  | none => norm_num
  | some g =>
    dsimp only
    split
    · norm_num
    · exact le_max_left 0 _

theorem concision_nonneg (text : Text) : 0 ≤ concision_bonus text := by
  unfold concision_bonus
  dsimp only
  split
  · norm_num
  · exact le_max_left 0 _

theorem tense_nonneg (text : Text) : 0 ≤ tense_consistency text := by
  unfold tense_consistency
  dsimp only
  set p : ℕ := countPast (lowerT text) with hp
  set q : ℕ := countPresent (lowerT text) with hq
  have hden : (0 : ℚ) < ((p + q + 1 : ℕ) : ℚ) := by positivity
  have h1 : (min (p : ℚ) (q : ℚ)) / ((p + q + 1 : ℕ) : ℚ) ≤ 1 := by
    rw [div_le_one hden]
    have h2 : min (p : ℚ) (q : ℚ) ≤ (p : ℚ) := min_le_left _ _
    have h3 : (p : ℚ) ≤ ((p + q + 1 : ℕ) : ℚ) := by push_cast; linarith [Nat.cast_nonneg (α := ℚ) q]
    linarith
  have h4 : (0 : ℚ) ≤ 0.3 * (1 - (min (p : ℚ) (q : ℚ)) / ((p + q + 1 : ℕ) : ℚ)) := by
    have := sub_nonneg.mpr h1
    nlinarith
  linarith

theorem structure_ats_fst_nonneg (text : Text) : 0 ≤ (structure_ats text).1 :=
  le_max_left 0 _

theorem structure_ats_fst_isCent (text : Text) : IsCent (structure_ats text).1 :=
  IsCent.max isCent_zero (isCent_pyRound2 _)

theorem projects_evidence_nonneg (sec : Text) : 0 ≤ projects_evidence sec := by
  unfold projects_evidence
  refine le_min (by norm_num) (pyRound2_nonneg ?_)
  have a1 : (0:ℚ) ≤ (if (containsSub (chars "problem") (lowerT sec) ||
      containsSub (chars "challenge") (lowerT sec) ||
      containsSub (chars "goal") (lowerT sec) : Bool) then (0.3:ℚ) else 0) := by
    split <;> norm_num
  have a2 : (0:ℚ) ≤ (if (containsSub (chars "approach") (lowerT sec) ||
      containsSub (chars "method") (lowerT sec) ||
      containsSub (chars "stack") (lowerT sec) ||
      containsSub (chars "tech") (lowerT sec) : Bool) then (0.3:ℚ) else 0) := by
    split <;> norm_num
  have a3 : (0:ℚ) ≤ (if metricSearch sec then (0.4:ℚ) else 0) := by
    split <;> norm_num
  linarith

theorem projects_evidence_isCent (sec : Text) : IsCent (projects_evidence sec) :=
  IsCent.min isCent_lit1 (isCent_pyRound2 _)

theorem hygiene_nonneg (text : Text) : 0 ≤ hygiene text := le_max_left 0 _

theorem hygiene_isCent (text : Text) : IsCent (hygiene text) :=
  IsCent.max isCent_zero (isCent_pyRound2 _)

/-! ## The skill-alignment proxy (`main.py` line 67) as a function of the
number of distinct detected skills (`len(skills[:10]) = min(10, len)`). -/

/-- The proxy `min(2.0, round(2.0 * len(skills[:10]) / 10, 2))` as a function of the
skill count. -/
def skillAlignmentOf (k : ℕ) : ℚ :=
  min 2.0 (pyRound2 (2.0 * ((min 10 k : ℕ) : ℚ) / 10))

theorem skillAlignmentOf_eq (k : ℕ) :
    skillAlignmentOf k = ((min 10 k : ℕ) : ℚ) / 5 := by
  unfold skillAlignmentOf
  have hm : (min 10 k : ℕ) ≤ 10 := Nat.min_le_left _ _
  have harg : 2.0 * ((min 10 k : ℕ) : ℚ) / 10 = ((min 10 k : ℕ) : ℚ) / 5 := by
    ring
  rw [harg]
  have hc : IsCent (((min 10 k : ℕ) : ℚ) / 5) :=
    ⟨20 * (min 10 k : ℕ), by push_cast; ring⟩
  rw [hc.round_eq]
  have hle : ((min 10 k : ℕ) : ℚ) / 5 ≤ 2.0 := by
    have : ((min 10 k : ℕ) : ℚ) ≤ 10 := by exact_mod_cast hm
    linarith
  exact min_eq_right hle

/-- The reported `skill_alignment` subscore is `skillAlignmentOf` of the
detected-skill count. -/
theorem analyze_skill_alignment (fuzzy : Text → Text → ℕ) (grade : Option ℚ)
    (text : Text) (ont : Ontology) (role jd : Option Text) :
    (analyze fuzzy grade text ont role jd).subscores.skill_alignment =
      skillAlignmentOf (extract_skills fuzzy text ont).length := by
  show pyRound2 (min 2.0 (pyRound2
      (2.0 * (((extract_skills fuzzy text ont).take 10).length : ℚ) / 10))) = _
  have hlen : ((extract_skills fuzzy text ont).take 10).length =
      min 10 (extract_skills fuzzy text ont).length := List.length_take 10 _
  rw [hlen]
  have hc : IsCent (skillAlignmentOf (extract_skills fuzzy text ont).length) := by
    unfold skillAlignmentOf
    exact IsCent.min isCent_lit2 (isCent_pyRound2 _)
  calc pyRound2 (min 2.0 (pyRound2
        (2.0 * ((min 10 (extract_skills fuzzy text ont).length : ℕ) : ℚ) / 10)))
      = pyRound2 (skillAlignmentOf (extract_skills fuzzy text ont).length) := rfl
    _ = skillAlignmentOf (extract_skills fuzzy text ont).length := hc.round_eq

/-- C7: the skill-alignment subscore, as a function of the number of
distinct detected skills, is monotonically non-decreasing, equals 2.0 from
10 skills on, and is exactly what `analyze` reports for the detected-skill
count. -/
theorem C7_skill_alignment_monotone_saturates :
    (∀ k l : ℕ, k ≤ l → skillAlignmentOf k ≤ skillAlignmentOf l) ∧
    (∀ k : ℕ, 10 ≤ k → skillAlignmentOf k = 2.0) ∧
    (∀ fuzzy grade text ont role jd,
      (analyze fuzzy grade text ont role jd).subscores.skill_alignment =
        skillAlignmentOf (extract_skills fuzzy text ont).length) := by
  refine ⟨?_, ?_, analyze_skill_alignment⟩
  · intro k l hkl
    rw [skillAlignmentOf_eq, skillAlignmentOf_eq]
    have : (min 10 k : ℕ) ≤ min 10 l := by omega
    have hcast : ((min 10 k : ℕ) : ℚ) ≤ ((min 10 l : ℕ) : ℚ) := by exact_mod_cast this
    linarith
  · intro k hk
    rw [skillAlignmentOf_eq]
    have : min 10 k = 10 := by omega
    rw [this]
    norm_num

/-- Witness for C7 at concrete inputs: monotone from 3 to 7 skills, and
saturation at 12 skills. -/
theorem C7_witness :
    (3 ≤ 7 ∧ skillAlignmentOf 3 ≤ skillAlignmentOf 7) ∧
    (10 ≤ 12 ∧ skillAlignmentOf 12 = 2.0) :=
  ⟨⟨by decide, C7_skill_alignment_monotone_saturates.1 3 7 (by decide)⟩,
   ⟨by decide, C7_skill_alignment_monotone_saturates.2.1 12 (by decide)⟩⟩

/-- C5: with no (or an empty) job description the comparator returns the
null comparison — coverage unset and all three lists empty — a state
distinct from a computed coverage of 0. -/
theorem C5_null_jd_comparison :
    (∀ skills : List Text, jd_compare [] skills = ⟨none, [], [], []⟩) ∧
    (∀ fuzzy grade text ont role,
      (analyze fuzzy grade text ont role none).jd_comparison =
        ⟨none, [], [], []⟩) ∧
    (∀ fuzzy grade text ont role,
      (analyze fuzzy grade text ont role (some [])).jd_comparison =
        ⟨none, [], [], []⟩) ∧
    (∀ skills : List Text, (jd_compare [] skills).coverage_pct ≠ some 0) := by
  have h1 : ∀ skills : List Text, jd_compare [] skills = ⟨none, [], [], []⟩ := by
    intro skills
    unfold jd_compare
    rw [if_pos rfl]
  refine ⟨h1, ?_, ?_, ?_⟩
  · intro fuzzy grade text ont role
    show jd_compare [] (extract_skills fuzzy text ont) = _
    exact h1 _
  · intro fuzzy grade text ont role
    show jd_compare [] (extract_skills fuzzy text ont) = _
    exact h1 _
  · intro skills
    rw [h1]
    simp

/-! ## Evaluating `rhe` on concrete values -/

theorem rhe_eq_of_lt_half {q : ℚ} {n : ℤ} (h1 : (n : ℚ) ≤ q)
    (h2 : q < (n : ℚ) + 1/2) : rhe q = n := by
  have hfl : ⌊q⌋ = n := Int.floor_eq_iff.mpr ⟨h1, by linarith⟩
  unfold rhe
  rw [qfloor_eq, hfl, if_pos (by linarith)]

theorem rhe_eq_of_gt_half {q : ℚ} {n : ℤ} (h1 : (n : ℚ) + 1/2 < q)
    (h2 : q < (n : ℚ) + 1) : rhe q = n + 1 := by
  have hfl : ⌊q⌋ = n := Int.floor_eq_iff.mpr ⟨by linarith, h2⟩
  unfold rhe
  rw [qfloor_eq, hfl, if_neg (by linarith), if_pos (by linarith)]

/-- Unfolding `jd_compare` when a job description is present. -/
theorem jd_compare_eq (jd : Text) (skills : List Text) (h : jd ≠ []) :
    jd_compare jd skills =
      ⟨some ((100 * (matchedOf jd skills).length) /
        max 1 ((matchedOf jd skills).length + (missingOf jd skills).length)),
       (missingOf jd skills).take 8, matchedOf jd skills,
       ((missingOf jd skills).take 5).map recTemplate⟩ := by
  unfold jd_compare
  rw [if_neg h]

/-- C9: with a job description present, at most 8 missing skills are
listed (the first 8), at most 5 recommendations (one templated sentence
per first-5 missing skill, same order), so with more than 5 missing
skills some listed missing skill has no recommendation. -/
theorem C9_missing_caps (jd : Text) (skills : List Text) (h : jd ≠ []) :
    (jd_compare jd skills).missing_skills = (missingOf jd skills).take 8 ∧
    (jd_compare jd skills).missing_skills.length ≤ 8 ∧
    (jd_compare jd skills).recommendations =
      ((missingOf jd skills).take 5).map recTemplate ∧
    (jd_compare jd skills).recommendations.length ≤ 5 ∧
    (jd_compare jd skills).recommendations =
      ((jd_compare jd skills).missing_skills.take 5).map recTemplate ∧
    (5 < (missingOf jd skills).length →
      (jd_compare jd skills).recommendations.length <
        (jd_compare jd skills).missing_skills.length) := by
  rw [jd_compare_eq jd skills h]
  refine ⟨rfl, ?_, rfl, ?_, ?_, ?_⟩
  · show ((missingOf jd skills).take 8).length ≤ 8
    rw [List.length_take]
    omega
  · show (((missingOf jd skills).take 5).map recTemplate).length ≤ 5
    rw [List.length_map, List.length_take]
    omega
  · show ((missingOf jd skills).take 5).map recTemplate =
      (((missingOf jd skills).take 8).take 5).map recTemplate
    rw [List.take_take]
    norm_num
  · intro h5
    show (((missingOf jd skills).take 5).map recTemplate).length <
      ((missingOf jd skills).take 8).length
    rw [List.length_map, List.length_take, List.length_take]
    omega

/-- Witness for C9: a job description containing six canonical skills the
candidate lacks. -/
theorem C9_witness :
    (chars "python sql powerbi docker airflow react" ≠ ([] : Text)) ∧
    ((jd_compare (chars "python sql powerbi docker airflow react") []).missing_skills =
      (missingOf (chars "python sql powerbi docker airflow react") []).take 8 ∧
     (jd_compare (chars "python sql powerbi docker airflow react") []).missing_skills.length ≤ 8 ∧
     (jd_compare (chars "python sql powerbi docker airflow react") []).recommendations =
      ((missingOf (chars "python sql powerbi docker airflow react") []).take 5).map recTemplate ∧
     (jd_compare (chars "python sql powerbi docker airflow react") []).recommendations.length ≤ 5 ∧
     (jd_compare (chars "python sql powerbi docker airflow react") []).recommendations =
      ((jd_compare (chars "python sql powerbi docker airflow react") []).missing_skills.take 5).map recTemplate ∧
     (5 < (missingOf (chars "python sql powerbi docker airflow react") []).length →
      (jd_compare (chars "python sql powerbi docker airflow react") []).recommendations.length <
        (jd_compare (chars "python sql powerbi docker airflow react") []).missing_skills.length)) :=
  ⟨by decide, C9_missing_caps (chars "python sql powerbi docker airflow react") [] (by decide)⟩

/-! ## C2: the coverage formula

Two spec-side formulas, written from the spec's words, to compare with the
code's `int(100 * len(matched) / max(1, len(matched)+len(missing)))`:
`coverageSpecRound` is the claimed `round(...)` (Python `round` is
half-to-even), `coverageSpecTrunc` is truncation toward zero — which, for a
non-negative quotient, is the floor. -/

/-- The claim's formula: `round(100·|matched| / max(1, |matched|+|missing|))`. -/
def coverageSpecRound (m k : ℕ) : ℤ :=
  rhe (((100 * m : ℕ) : ℚ) / ((max 1 (m + k) : ℕ) : ℚ))

/-- The amended formula: truncation (= floor on this non-negative value). -/
def coverageSpecTrunc (m k : ℕ) : ℤ :=
  ⌊((100 * m : ℕ) : ℚ) / ((max 1 (m + k) : ℕ) : ℚ)⌋

/-- C2 counterexample: with job description `"go rust python"` and detected
skills `["go", "rust"]`, two skills match and one canonical skill is
missing; the code returns `int(200/3) = 66` while the claimed
`round(200/3)` is `67`. -/
theorem C2_counterexample :
    (jd_compare (chars "go rust python") [chars "go", chars "rust"]).matched_keywords.length = 2 ∧
    (jd_compare (chars "go rust python") [chars "go", chars "rust"]).missing_skills.length = 1 ∧
    (jd_compare (chars "go rust python") [chars "go", chars "rust"]).coverage_pct = some 66 ∧
    coverageSpecRound 2 1 = 67 ∧
    ¬ ((66 : ℤ) = coverageSpecRound 2 1) := by
  refine ⟨by decide, by decide, by decide, ?_, ?_⟩
  · unfold coverageSpecRound
    have harg : (((100 * 2 : ℕ) : ℚ) / ((max 1 (2 + 1) : ℕ) : ℚ)) = 200 / 3 := by
      norm_num
    rw [harg]
    have : rhe ((200 : ℚ) / 3) = 66 + 1 :=
      rhe_eq_of_gt_half (n := 66) (by norm_num) (by norm_num)
    rw [this]
    norm_num
  · unfold coverageSpecRound
    have harg : (((100 * 2 : ℕ) : ℚ) / ((max 1 (2 + 1) : ℕ) : ℚ)) = 200 / 3 := by
      norm_num
    rw [harg]
    have : rhe ((200 : ℚ) / 3) = 66 + 1 :=
      rhe_eq_of_gt_half (n := 66) (by norm_num) (by norm_num)
    omega

/-- C2 as amended: the comparator's coverage is the *truncated* (not
rounded) percentage `⌊100·|matched| / max(1, |matched|+|missing|)⌋`, with
`matched` the detected skills whose normalized form is a JD token and
`missing` the canonical skills absent from the detected set but present in
the JD tokens; the `max(1, …)` guard makes the both-empty case `0`, not a
division error. -/
theorem C2_coverage_truncated (jd : Text) (skills : List Text) (h : jd ≠ []) :
    (jd_compare jd skills).matched_keywords = matchedOf jd skills ∧
    (jd_compare jd skills).missing_skills = (missingOf jd skills).take 8 ∧
    (∃ n : ℕ, (jd_compare jd skills).coverage_pct = some n ∧
      (n : ℤ) = coverageSpecTrunc (matchedOf jd skills).length
        (missingOf jd skills).length) ∧
    ((matchedOf jd skills).length = 0 ∧ (missingOf jd skills).length = 0 →
      (jd_compare jd skills).coverage_pct = some 0) := by
  rw [jd_compare_eq jd skills h]
  refine ⟨rfl, rfl, ?_, ?_⟩
  · refine ⟨(100 * (matchedOf jd skills).length) /
      max 1 ((matchedOf jd skills).length + (missingOf jd skills).length), rfl, ?_⟩
    unfold coverageSpecTrunc
    rw [Rat.floor_natCast_div_natCast]
    exact (Int.ofNat_ediv _ _).symm
  · intro ⟨hm, hk⟩
    show some ((100 * (matchedOf jd skills).length) /
      max 1 ((matchedOf jd skills).length + (missingOf jd skills).length)) = some 0
    rw [hm, hk]
    norm_num

/-- Witness for the amended C2 at the spec's own scenario: JD tokens
`docker airflow`, detected skills `["docker"]`. -/
theorem C2_witness :
    (chars "docker airflow" ≠ ([] : Text)) ∧
    ((jd_compare (chars "docker airflow") [chars "docker"]).matched_keywords =
      matchedOf (chars "docker airflow") [chars "docker"] ∧
    (jd_compare (chars "docker airflow") [chars "docker"]).missing_skills =
      (missingOf (chars "docker airflow") [chars "docker"]).take 8 ∧
    (∃ n : ℕ, (jd_compare (chars "docker airflow") [chars "docker"]).coverage_pct = some n ∧
      (n : ℤ) = coverageSpecTrunc (matchedOf (chars "docker airflow") [chars "docker"]).length
        (missingOf (chars "docker airflow") [chars "docker"]).length) ∧
    ((matchedOf (chars "docker airflow") [chars "docker"]).length = 0 ∧
        (missingOf (chars "docker airflow") [chars "docker"]).length = 0 →
      (jd_compare (chars "docker airflow") [chars "docker"]).coverage_pct = some 0)) :=
  ⟨by decide, C2_coverage_truncated (chars "docker airflow") [chars "docker"] (by decide)⟩

/-! ## C3: the scale-down/scale-up no-op in the bullet scorer -/

/-- The simplified single-cap bullet scorer described by the spec (§4.5 and
§9): compute the composite, multiply by 3, round, cap at 3.0 — without the
divide-by-3/multiply-by-3 round trip of utils.py line 91. -/
def score_bullets_simplified (bs : List Text) (ont : Ontology) : BulletScore :=
  if bs = [] then ⟨0, [NO_BULLETS_REASON]⟩
  else ⟨min 3.0 (pyRound2 (bulletComposite bs ont * 3.0)), bulletReasons bs ont⟩

/-- C3: the scale-down/scale-up round trip in `score_bullets` has no effect
under exact arithmetic: the source scorer and the simplified single-cap
scorer agree on every bullet list and ontology, and on non-empty input the
score is exactly `min(3.0, round(composite · 3.0, 2))`. -/
theorem C3_scaling_noop (bs : List Text) (ont : Ontology) :
    score_bullets bs ont = score_bullets_simplified bs ont ∧
    (bs ≠ [] → (score_bullets bs ont).score =
      min 3.0 (pyRound2 (bulletComposite bs ont * 3.0))) := by
  constructor
  · unfold score_bullets score_bullets_simplified
    split
    · rfl
    · rw [div3_mul3, (IsCent.min isCent_lit3 (isCent_pyRound2 _)).round_eq]
  · intro h
    exact score_bullets_score_eq bs ont h

/-- Witness for C3 on a concrete non-empty bullet list. -/
theorem C3_witness :
    ([chars "Shipped it"] ≠ ([] : List Text)) ∧
    (score_bullets [chars "Shipped it"] ⟨[], []⟩).score =
      min 3.0 (pyRound2 (bulletComposite [chars "Shipped it"] ⟨[], []⟩ * 3.0)) :=
  ⟨by decide, (C3_scaling_noop [chars "Shipped it"] ⟨[], []⟩).2 (by decide)⟩

/-! ## C4: the empty document -/

theorem analyzeBullets_empty : analyzeBullets [] = [] := by decide

theorem hygiene_empty : hygiene ([] : Text) = 0 := by
  show max 0 (pyRound2 (0.5 - (if ([] : Text).contains '@' then 0 else 0.2) -
    (if (wordsBy (fun c => !isDigitC c) ([] : Text)).any
        (fun r => decide (7 ≤ r.length)) then 0 else 0.1) -
    (if ([] : Text).length < 500 then 0.2 else 0))) = 0
  rw [show (([] : Text).contains '@') = false from rfl]
  rw [show (wordsBy (fun c => !isDigitC c) ([] : Text)).any
      (fun r => decide (7 ≤ r.length)) = false from rfl]
  rw [if_pos (by norm_num : ([] : Text).length < 500)]
  norm_num
  exact le_of_eq pyRound2_zero

/-- C4: on the empty document the engine does not fail: no bullets are
analyzed, the bullet scorer returns 0.0 with exactly the
"No bullet points detected." reason, and the hygiene subscore is at most
0.3 (the under-500-characters penalty applies). -/
theorem C4_empty_document (fuzzy : Text → Text → ℕ) (grade : Option ℚ)
    (ont : Ontology) (role jd : Option Text) :
    analyzeBullets [] = [] ∧
    (analyze fuzzy grade [] ont role jd).bullets_analyzed = [] ∧
    score_bullets (analyzeBullets []) ont = ⟨0, [NO_BULLETS_REASON]⟩ ∧
    (analyze fuzzy grade [] ont role jd).subscores.hygiene ≤ 0.3 := by
  refine ⟨analyzeBullets_empty, ?_, ?_, ?_⟩
  · show (analyzeBullets []).take 10 = []
    rw [analyzeBullets_empty]
    rfl
  · rw [analyzeBullets_empty]
    rfl
  · show pyRound2 (min 0.5 (hygiene [])) ≤ 0.3
    rw [hygiene_empty, min_eq_right (by norm_num : (0:ℚ) ≤ 0.5), pyRound2_zero]
    norm_num

/-! ## C6: the quantified-impact pattern and the "40%" scenario -/

/-- The scenario text: a bullet line under an experience header. -/
def scenarioText : Text :=
  chars "Experience\n- Built a dashboard reducing load time by 40%"

/-- The bullet the extractor should yield: the line without its marker. -/
def scenarioBullet : Text :=
  chars "Built a dashboard reducing load time by 40%"

/-- C6: `metric_hits` counts exactly the bullets on which the
quantified-impact pattern `METRIC_RE` fires; on the scenario text the
pipeline extracts the marker-stripped line as the single bullet, the
pattern matches its "40%", and `action_hits` increments by one whenever
"built" is in the ontology's action-verb set. -/
theorem C6_metric_hits_and_scenario :
    (∀ bs : List Text, metricHits bs = (bs.filter bulletMetricHit).length) ∧
    analyzeBullets scenarioText = [scenarioBullet] ∧
    metricAlt1 (chars "40%") = true ∧
    metricSearch scenarioBullet = true ∧
    (∀ (verbs bs : List Text), chars "built" ∈ verbs →
      actionHits verbs (scenarioBullet :: bs) = actionHits verbs bs + 1) := by
  refine ⟨?_, by decide, by decide, by decide, ?_⟩
  · intro bs
    exact List.countP_eq_length_filter _ _
  · intro verbs bs hmem
    have hhit : bulletActionHit verbs scenarioBullet = true := by
      unfold bulletActionHit
      rw [show pySplit scenarioBullet = chars "Built" ::
        [chars "a", chars "dashboard", chars "reducing", chars "load",
         chars "time", chars "by", chars "40%"] from by decide]
      dsimp only
      rw [show lowerT (chars "Built") = chars "built" from by decide]
      exact List.elem_eq_true_of_mem hmem
    unfold actionHits
    rw [List.countP_cons, if_pos hhit]

/-- Witness for C6's increment clause with a concrete verb set. -/
theorem C6_witness :
    (chars "built" ∈ [chars "built"]) ∧
    actionHits [chars "built"] (scenarioBullet :: []) =
      actionHits [chars "built"] [] + 1 :=
  ⟨by decide,
   C6_metric_hits_and_scenario.2.2.2.2 [chars "built"] [] (by decide)⟩

/-! ## C10: header classification picks the first hint in order -/

/-- Position of the first occurrence of `x` in a list of texts. -/
def posIn (x : Text) : List Text → ℕ
  | [] => 0
  | y :: ys => if x = y then 0 else posIn x ys + 1

/-- A `List.find?` call never returns a match when an element strictly earlier in
the list satisfies the predicate. -/
theorem find?_earlier (p : Text → Bool) :
    ∀ (l : List Text) (x y : Text), l.find? p = some x → y ∈ l →
      posIn y l < posIn x l → p y = false := by
  intro l
  induction l with
  | nil =>
    intro x y h hy hlt
    simp at h
  | cons a as ih =>
    intro x y hfind hy hlt
    by_cases hpa : p a = true
    · rw [List.find?_cons_of_pos as hpa] at hfind
      have hx : x = a := by
        injection hfind with h
        exact h.symm
      subst hx
      unfold posIn at hlt
      rw [if_pos rfl] at hlt
      omega
    · rw [List.find?_cons_of_neg as hpa] at hfind
      have hxa : x ≠ a := by
        intro h
        subst h
        exact hpa (List.find?_some hfind)
      rcases List.mem_cons.mp hy with rfl | hy2
      · exact Bool.eq_false_iff.mpr hpa
      · by_cases hya : y = a
        · subst hya
          exact Bool.eq_false_iff.mpr hpa
        · apply ih x y hfind hy2
          unfold posIn at hlt
          rw [if_neg hya, if_neg hxa] at hlt
          omega

/-- C10: a recognized header line switches the current section to the
matched hint and is not stored as content; the matched hint is a genuine
match and every hint strictly earlier in the fixed `HEADER_HINTS` order
fails the header test on that line; in particular a "Work Experience" line
switches to "experience", never "work". -/
theorem C10_header_first_in_order :
    (∀ (ln : Text) (rest : List Text) (cur h : Text),
      classifyHeader ln = some h →
        assignLines (ln :: rest) cur = assignLines rest h) ∧
    (∀ (ln h : Text), classifyHeader ln = some h →
      h ∈ HEADER_HINTS ∧
      (containsSub h (lowerT ln) && decide (ln.length ≤ 40)) = true ∧
      (∀ h2 ∈ HEADER_HINTS,
        posIn h2 HEADER_HINTS < posIn h HEADER_HINTS →
        (containsSub h2 (lowerT ln) && decide (ln.length ≤ 40)) = false)) ∧
    classifyHeader (chars "Work Experience") = some (chars "experience") := by
  refine ⟨?_, ?_, by decide⟩
  · intro ln rest cur h hcl
    simp only [assignLines, hcl]
  · intro ln h hcl
    have hcl' : HEADER_HINTS.find?
        (fun hh => containsSub hh (lowerT ln) && decide (ln.length ≤ 40)) =
        some h := hcl
    have hp := List.find?_some hcl'
    refine ⟨List.mem_of_find?_eq_some hcl', by simpa using hp, ?_⟩
    intro h2 hmem hlt
    have he := find?_earlier
      (fun hh => containsSub hh (lowerT ln) && decide (ln.length ≤ 40))
      HEADER_HINTS h h2 hcl' hmem hlt
    simpa using he

/-- Witness for C10: a "Work Experience" header line is consumed and
switches the section to "experience"; for a "Projects" header the earlier
hint "work" fails the header test. -/
theorem C10_witness :
    (classifyHeader (chars "Work Experience") = some (chars "experience")) ∧
    assignLines [chars "Work Experience", chars "did things"] (chars "summary") =
      assignLines [chars "did things"] (chars "experience") ∧
    (chars "work" ∈ HEADER_HINTS ∧
     posIn (chars "work") HEADER_HINTS <
       posIn (chars "projects") HEADER_HINTS ∧
     (containsSub (chars "work") (lowerT (chars "Projects")) &&
       decide ((chars "Projects").length ≤ 40)) = false) :=
  ⟨by decide,
   C10_header_first_in_order.1 (chars "Work Experience") [chars "did things"]
     (chars "summary") (chars "experience") (by decide),
   by decide, by decide,
   (C10_header_first_in_order.2.1 (chars "Projects") (chars "projects")
     (by decide)).2.2 (chars "work") (by decide) (by decide)⟩

/-! ## C8: Structure/ATS -/

theorem IsCent.sub {a b : ℚ} (ha : IsCent a) (hb : IsCent b) : IsCent (a - b) := by
  obtain ⟨m, rfl⟩ := ha
  obtain ⟨n, rfl⟩ := hb
  exact ⟨m - n, by push_cast; ring⟩

/-- The Structure/ATS sub-scorer as the spec words it (§4.6): start at 1.5,
subtract each triggered penalty, clamp to [0, 1.5], one reason per
triggered penalty. -/
def structureSpec (text : Text) : ℚ × List Text :=
  let p1 := 18000 < text.length
  let p2 := text.contains '\t'
  let p3 := text.count '•' + text.count '-' < 5
  let p4 := ¬ (HEADER_HINTS.any (fun h => containsSub h (lowerT text)) = true)
  (min 1.5 (max 0 (1.5 - (if p1 then 0.4 else 0) - (if p2 then 0.3 else 0) -
    (if p3 then 0.3 else 0) - (if p4 then 0.3 else 0))),
   (if p1 then [chars "Resume likely exceeds recommended length."] else []) ++
   (if p2 then [chars "Tabs/tables may hurt ATS parsing."] else []) ++
   (if p3 then [chars "Too few bullet points detected."] else []) ++
   (if p4 then [chars "Missing standard section headers."] else []))

theorem structure_ats_eq_spec (text : Text) :
    structure_ats text = structureSpec text := by
  unfold structure_ats structureSpec
  dsimp only
  have hc1 : IsCent (if 18000 < text.length then (0.4:ℚ) else 0) := by
    split
    · exact ⟨40, by norm_num⟩
    · exact isCent_zero
  have hc2 : IsCent (if text.contains '\t' then (0.3:ℚ) else 0) := by
    split
    · exact ⟨30, by norm_num⟩
    · exact isCent_zero
  have hc3 : IsCent (if text.count '•' + text.count '-' < 5 then (0.3:ℚ) else 0) := by
    split
    · exact ⟨30, by norm_num⟩
    · exact isCent_zero
  have hc4 : IsCent (if ¬ (HEADER_HINTS.any (fun h => containsSub h (lowerT text)) = true)
      then (0.3:ℚ) else 0) := by
    split
    · exact ⟨30, by norm_num⟩
    · exact isCent_zero
  have hn1 : (0:ℚ) ≤ if 18000 < text.length then (0.4:ℚ) else 0 := by
    split <;> norm_num
  have hn2 : (0:ℚ) ≤ if text.contains '\t' then (0.3:ℚ) else 0 := by
    split <;> norm_num
  have hn3 : (0:ℚ) ≤ if text.count '•' + text.count '-' < 5 then (0.3:ℚ) else 0 := by
    split <;> norm_num
  have hn4 : (0:ℚ) ≤ if ¬ (HEADER_HINTS.any (fun h => containsSub h (lowerT text)) = true)
      then (0.3:ℚ) else 0 := by
    split <;> norm_num
  have hcent : IsCent (1.5 - (if 18000 < text.length then (0.4:ℚ) else 0) -
      (if text.contains '\t' then (0.3:ℚ) else 0) -
      (if text.count '•' + text.count '-' < 5 then (0.3:ℚ) else 0) -
      (if ¬ (HEADER_HINTS.any (fun h => containsSub h (lowerT text)) = true)
        then (0.3:ℚ) else 0)) :=
    (((isCent_lit15.sub hc1).sub hc2).sub hc3).sub hc4
  rw [hcent.round_eq]
  have hle : 1.5 - (if 18000 < text.length then (0.4:ℚ) else 0) -
      (if text.contains '\t' then (0.3:ℚ) else 0) -
      (if text.count '•' + text.count '-' < 5 then (0.3:ℚ) else 0) -
      (if ¬ (HEADER_HINTS.any (fun h => containsSub h (lowerT text)) = true)
        then (0.3:ℚ) else 0) ≤ 1.5 := by
    linarith
  rw [min_eq_right (max_le (by norm_num) hle)]

/-- C8: the Structure/ATS scorer is the spec's start-at-1.5,
subtract-per-penalty, clamp-to-[0,1.5], one-reason-per-penalty procedure;
on any over-length text with no tab, at least five bullet markers and a
header hint present, the score is exactly 1.1 with exactly the length
reason. -/
theorem C8_structure_ats (text : Text) (h1 : 18000 < text.length)
    (h2 : text.contains '\t' = false)
    (h3 : 5 ≤ text.count '•' + text.count '-')
    (h4 : HEADER_HINTS.any (fun h => containsSub h (lowerT text)) = true) :
    structure_ats text = structureSpec text ∧
    structure_ats text =
      (1.1, [chars "Resume likely exceeds recommended length."]) := by
  refine ⟨structure_ats_eq_spec text, ?_⟩
  unfold structure_ats
  dsimp only
  rw [if_pos h1, if_pos h1, h2]
  rw [if_neg (by omega : ¬ (text.count '•' + text.count '-' < 5))]
  rw [if_neg (by omega : ¬ (text.count '•' + text.count '-' < 5))]
  rw [if_neg (not_not_intro h4), if_neg (not_not_intro h4)]
  norm_num
  rw [IsCent.round_eq (q := (11 : ℚ) / 10) ⟨110, by norm_num⟩]
  exact max_eq_right (by norm_num)

/-- A 20000-character document: an "experience" header hint, filler, and
six `-` bullet markers; no tab. -/
def c8text : Text :=
  chars "experience" ++ List.replicate 19984 'a' ++ List.replicate 6 '-'

theorem isPrefixOf_self_append :
    ∀ (l r : List Char), l.isPrefixOf (l ++ r) = true := by
  intro l
  induction l with
  | nil =>
    intro r
    cases r <;> rfl
  | cons a as ih =>
    intro r
    show (a == a && as.isPrefixOf (as ++ r)) = true
    rw [ih r]
    simp

theorem containsSub_self_append (needle rest : Text) :
    containsSub needle (needle ++ rest) = true := by
  cases needle with
  | nil =>
    cases rest with
    | nil => rfl
    | cons c cs =>
      show (([] : Text).isPrefixOf (c :: cs) || containsSub [] cs) = true
      rfl
  | cons c cs =>
    show ((c :: cs).isPrefixOf ((c :: cs) ++ rest) || _) = true
    rw [isPrefixOf_self_append]
    simp

theorem c8text_len : c8text.length = 20000 := by
  unfold c8text
  rw [List.length_append, List.length_append, List.length_replicate,
    List.length_replicate]
  rw [show (chars "experience").length = 10 from rfl]

theorem c8text_no_tab : c8text.contains '\t' = false := by
  apply Bool.eq_false_iff.mpr
  intro hc
  have hmem : '\t' ∈ c8text := List.mem_of_elem_eq_true hc
  unfold c8text at hmem
  rcases List.mem_append.mp hmem with hm | hm2
  · rcases List.mem_append.mp hm with hm3 | hm4
    · revert hm3
      decide
    · exact absurd (List.eq_of_mem_replicate hm4) (by decide)
  · exact absurd (List.eq_of_mem_replicate hm2) (by decide)

theorem c8text_counts : c8text.count '•' + c8text.count '-' = 6 := by
  unfold c8text
  rw [List.count_append, List.count_append, List.count_append,
    List.count_append, List.count_replicate, List.count_replicate,
    List.count_replicate, List.count_replicate]
  rw [show (chars "experience").count '•' = 0 from rfl]
  rw [show (chars "experience").count '-' = 0 from rfl]
  decide

theorem c8text_header :
    HEADER_HINTS.any (fun h => containsSub h (lowerT c8text)) = true := by
  have hmap : lowerT c8text =
      chars "experience" ++ (List.replicate 19984 'a' ++ List.replicate 6 '-') := by
    unfold c8text lowerT
    rw [List.map_append, List.map_append, List.map_replicate, List.map_replicate]
    rw [show (chars "experience").map lowerC = chars "experience" from by decide]
    rw [show lowerC 'a' = 'a' from rfl, show lowerC '-' = '-' from rfl]
    rw [List.append_assoc]
  show (containsSub (chars "experience") (lowerT c8text) ||
    ([chars "work", chars "projects", chars "education", chars "skills",
      chars "summary", chars "certifications"]).any
      (fun h => containsSub h (lowerT c8text))) = true
  rw [hmap, containsSub_self_append, Bool.true_or]

/-- Witness for C8 at the spec's scenario: a 20000-character text with no
tab, six bullet markers and a header hint, scored 1.1 with one reason. -/
theorem C8_witness :
    (18000 < c8text.length ∧ c8text.contains '\t' = false ∧
     5 ≤ c8text.count '•' + c8text.count '-' ∧
     HEADER_HINTS.any (fun h => containsSub h (lowerT c8text)) = true) ∧
    (structure_ats c8text = structureSpec c8text ∧
     structure_ats c8text =
       (1.1, [chars "Resume likely exceeds recommended length."])) :=
  ⟨⟨by rw [c8text_len]; norm_num, c8text_no_tab,
    by rw [c8text_counts]; norm_num, c8text_header⟩,
   C8_structure_ats c8text (by rw [c8text_len]; norm_num) c8text_no_tab
     (by rw [c8text_counts]; norm_num) c8text_header⟩

/-! ## C1: bounds of the response -/

/-- The reported form of one subscore: the round of a clamped value is the
clamped value; it is non-negative when the clamped term is, and bounded by
the clamp. -/
theorem subscore_props {B X : ℚ} (hB : 0 ≤ B) (hBc : IsCent B) (hX : 0 ≤ X)
    (hXc : IsCent X) :
    pyRound2 (min B X) = min B X ∧ 0 ≤ pyRound2 (min B X) ∧
      pyRound2 (min B X) ≤ B := by
  have he : pyRound2 (min B X) = min B X := (hBc.min hXc).round_eq
  refine ⟨he, ?_, ?_⟩
  · rw [he]
    exact le_min hB hX
  · rw [he]
    exact min_le_left B X

/-- C1: the overall score is the two-decimal rounding of the sum of the six
reported subscores, the overall score lies in [0, 10], and each subscore
lies within its documented bound (impact ≤ 3.0, skill alignment ≤ 2.0,
clarity/tone ≤ 2.0, structure/ATS ≤ 1.5, projects ≤ 1.0, hygiene ≤ 0.5,
all non-negative). -/
theorem C1_response_bounds (fuzzy : Text → Text → ℕ) (grade : Option ℚ)
    (text : Text) (ont : Ontology) (role jd : Option Text) :
    ((analyze fuzzy grade text ont role jd).overall_score =
      pyRound2 ((analyze fuzzy grade text ont role jd).subscores.impact_bullets +
        (analyze fuzzy grade text ont role jd).subscores.skill_alignment +
        (analyze fuzzy grade text ont role jd).subscores.clarity_tone +
        (analyze fuzzy grade text ont role jd).subscores.structure_ats +
        (analyze fuzzy grade text ont role jd).subscores.projects +
        (analyze fuzzy grade text ont role jd).subscores.hygiene)) ∧
    (0 ≤ (analyze fuzzy grade text ont role jd).overall_score ∧
      (analyze fuzzy grade text ont role jd).overall_score ≤ 10) ∧
    (0 ≤ (analyze fuzzy grade text ont role jd).subscores.impact_bullets ∧
      (analyze fuzzy grade text ont role jd).subscores.impact_bullets ≤ 3.0) ∧
    (0 ≤ (analyze fuzzy grade text ont role jd).subscores.skill_alignment ∧
      (analyze fuzzy grade text ont role jd).subscores.skill_alignment ≤ 2.0) ∧
    (0 ≤ (analyze fuzzy grade text ont role jd).subscores.clarity_tone ∧
      (analyze fuzzy grade text ont role jd).subscores.clarity_tone ≤ 2.0) ∧
    (0 ≤ (analyze fuzzy grade text ont role jd).subscores.structure_ats ∧
      (analyze fuzzy grade text ont role jd).subscores.structure_ats ≤ 1.5) ∧
    (0 ≤ (analyze fuzzy grade text ont role jd).subscores.projects ∧
      (analyze fuzzy grade text ont role jd).subscores.projects ≤ 1.0) ∧
    (0 ≤ (analyze fuzzy grade text ont role jd).subscores.hygiene ∧
      (analyze fuzzy grade text ont role jd).subscores.hygiene ≤ 0.5) := by
  have hX1 : 0 ≤ (score_bullets (analyzeBullets text) ont).score :=
    score_bullets_nonneg _ _
  have hX2 : 0 ≤ pyRound2
      (2.0 * (((extract_skills fuzzy text ont).take 10).length : ℚ) / 10) :=
    pyRound2_nonneg (by positivity)
  have hX3 : 0 ≤ pyRound2 (readability_score grade + concision_bonus text +
      tense_consistency text) := by
    have h1 := readability_nonneg grade
    have h2 := concision_nonneg text
    have h3 := tense_nonneg text
    exact pyRound2_nonneg (by linarith)
  have hX4 : 0 ≤ (structure_ats text).1 := structure_ats_fst_nonneg text
  have hX5 : 0 ≤ projects_evidence (sget (detect_sections text) (chars "projects")) :=
    projects_evidence_nonneg _
  have hX6 : 0 ≤ hygiene text := hygiene_nonneg text
  have P1 := subscore_props (B := 3.0)
    (X := (score_bullets (analyzeBullets text) ont).score)
    (by norm_num) isCent_lit3 hX1 (score_bullets_isCent _ _)
  have P2 := subscore_props (B := 2.0)
    (X := pyRound2 (2.0 * (((extract_skills fuzzy text ont).take 10).length : ℚ) / 10))
    (by norm_num) isCent_lit2 hX2 (isCent_pyRound2 _)
  have P3 := subscore_props (B := 2.0)
    (X := pyRound2 (readability_score grade + concision_bonus text +
      tense_consistency text))
    (by norm_num) isCent_lit2 hX3 (isCent_pyRound2 _)
  have P4 := subscore_props (B := 1.5) (X := (structure_ats text).1)
    (by norm_num) isCent_lit15 hX4 (structure_ats_fst_isCent text)
  have P5 := subscore_props (B := 1.0)
    (X := projects_evidence (sget (detect_sections text) (chars "projects")))
    (by norm_num) isCent_lit1 hX5 (projects_evidence_isCent _)
  have P6 := subscore_props (B := 0.5) (X := hygiene text)
    (by norm_num) isCent_lit05 hX6 (hygiene_isCent text)
  have hm1 : 0 ≤ min 3.0 (score_bullets (analyzeBullets text) ont).score :=
    le_min (by norm_num) hX1
  have hm2 : 0 ≤ min 2.0 (pyRound2
      (2.0 * (((extract_skills fuzzy text ont).take 10).length : ℚ) / 10)) :=
    le_min (by norm_num) hX2
  have hm3 : 0 ≤ min 2.0 (pyRound2 (readability_score grade +
      concision_bonus text + tense_consistency text)) :=
    le_min (by norm_num) hX3
  have hm4 : 0 ≤ min 1.5 (structure_ats text).1 := le_min (by norm_num) hX4
  have hm5 : 0 ≤ min 1.0
      (projects_evidence (sget (detect_sections text) (chars "projects"))) :=
    le_min (by norm_num) hX5
  have hm6 : 0 ≤ min 0.5 (hygiene text) := le_min (by norm_num) hX6
  have htotal_cent : IsCent (min 3.0 (score_bullets (analyzeBullets text) ont).score +
      min 2.0 (pyRound2 (2.0 * (((extract_skills fuzzy text ont).take 10).length : ℚ) / 10)) +
      min 2.0 (pyRound2 (readability_score grade + concision_bonus text +
        tense_consistency text)) +
      min 1.5 (structure_ats text).1 +
      min 1.0 (projects_evidence (sget (detect_sections text) (chars "projects"))) +
      min 0.5 (hygiene text)) := by
    refine IsCent.add (IsCent.add (IsCent.add (IsCent.add (IsCent.add ?_ ?_) ?_) ?_) ?_) ?_
    · exact IsCent.min isCent_lit3 (score_bullets_isCent _ _)
    · exact IsCent.min isCent_lit2 (isCent_pyRound2 _)
    · exact IsCent.min isCent_lit2 (isCent_pyRound2 _)
    · exact IsCent.min isCent_lit15 (structure_ats_fst_isCent text)
    · exact IsCent.min isCent_lit1 (projects_evidence_isCent _)
    · exact IsCent.min isCent_lit05 (hygiene_isCent text)
  refine ⟨?_, ⟨?_, ?_⟩, ⟨P1.2.1, P1.2.2⟩, ⟨P2.2.1, P2.2.2⟩, ⟨P3.2.1, P3.2.2⟩,
    ⟨P4.2.1, P4.2.2⟩, ⟨P5.2.1, P5.2.2⟩, ⟨P6.2.1, P6.2.2⟩⟩
  · show pyRound2 (min 3.0 (score_bullets (analyzeBullets text) ont).score +
      min 2.0 (pyRound2 (2.0 * (((extract_skills fuzzy text ont).take 10).length : ℚ) / 10)) +
      min 2.0 (pyRound2 (readability_score grade + concision_bonus text +
        tense_consistency text)) +
      min 1.5 (structure_ats text).1 +
      min 1.0 (projects_evidence (sget (detect_sections text) (chars "projects"))) +
      min 0.5 (hygiene text)) = pyRound2
      (pyRound2 (min 3.0 (score_bullets (analyzeBullets text) ont).score) +
       pyRound2 (min 2.0 (pyRound2 (2.0 * (((extract_skills fuzzy text ont).take 10).length : ℚ) / 10))) +
       pyRound2 (min 2.0 (pyRound2 (readability_score grade + concision_bonus text +
         tense_consistency text))) +
       pyRound2 (min 1.5 (structure_ats text).1) +
       pyRound2 (min 1.0 (projects_evidence (sget (detect_sections text) (chars "projects")))) +
       pyRound2 (min 0.5 (hygiene text)))
    rw [P1.1, P2.1, P3.1, P4.1, P5.1, P6.1]
  · show 0 ≤ pyRound2 (min 3.0 (score_bullets (analyzeBullets text) ont).score +
      min 2.0 (pyRound2 (2.0 * (((extract_skills fuzzy text ont).take 10).length : ℚ) / 10)) +
      min 2.0 (pyRound2 (readability_score grade + concision_bonus text +
        tense_consistency text)) +
      min 1.5 (structure_ats text).1 +
      min 1.0 (projects_evidence (sget (detect_sections text) (chars "projects"))) +
      min 0.5 (hygiene text))
    exact pyRound2_nonneg (by linarith)
  · show pyRound2 (min 3.0 (score_bullets (analyzeBullets text) ont).score +
      min 2.0 (pyRound2 (2.0 * (((extract_skills fuzzy text ont).take 10).length : ℚ) / 10)) +
      min 2.0 (pyRound2 (readability_score grade + concision_bonus text +
        tense_consistency text)) +
      min 1.5 (structure_ats text).1 +
      min 1.0 (projects_evidence (sget (detect_sections text) (chars "projects"))) +
      min 0.5 (hygiene text)) ≤ 10
    rw [htotal_cent.round_eq]
    have u1 : min 3.0 (score_bullets (analyzeBullets text) ont).score ≤ 3.0 :=
      min_le_left _ _
    have u2 : min 2.0 (pyRound2
        (2.0 * (((extract_skills fuzzy text ont).take 10).length : ℚ) / 10)) ≤ 2.0 :=
      min_le_left _ _
    have u3 : min 2.0 (pyRound2 (readability_score grade + concision_bonus text +
        tense_consistency text)) ≤ 2.0 := min_le_left _ _
    have u4 : min 1.5 (structure_ats text).1 ≤ 1.5 := min_le_left _ _
    have u5 : min 1.0 (projects_evidence (sget (detect_sections text)
        (chars "projects"))) ≤ 1.0 := min_le_left _ _
    have u6 : min 0.5 (hygiene text) ≤ 0.5 := min_le_left _ _
    linarith
